import Mathlib

/-!
Verification of the OpenShock Auto-Flasher core (`openshock_autoflasher/flasher.py`
and `openshock_autoflasher/cli.py`) against its natural-language specification.

The Python code is shallowly embedded: pure string manipulation is translated to
Lean functions over `String`/`List Char`; network, filesystem, the external
esptool invocations and the serial port are modelled as explicit world records
whose fields give the outcome (`Except String _`, where `.error e` stands for a
raised Python exception with message `e`) of each external call; the mutable
`AutoFlasher` object is threaded explicitly through each method.
-/

/-! ## Python string primitives

Structural-recursion replacements for the Python `str` methods used by the
code (`str.strip`, `str.split()`, `str.split("\n")`, `str.lower`, `" ".join`),
so that everything kernel-reduces on concrete inputs.
-/

/-- Whitespace characters recognised by Python `str.strip` / `str.split()`
(ASCII subset, which is all the code ever feeds them). -/
def pyIsSpace (c : Char) : Bool :=
  c = ' ' ∨ c = '\t' ∨ c = '\n' ∨ c = '\x0b' ∨ c = '\x0c' ∨ c = '\r'

/-- Remove leading and trailing whitespace from a character list. -/
def stripChars (l : List Char) : List Char :=
  ((l.dropWhile pyIsSpace).reverse.dropWhile pyIsSpace).reverse

/-- Python `s.strip()`. -/
def pyStrip (s : String) : String := String.mk (stripChars s.toList)

/-- Split a character list at every occurrence of `sep`, keeping empty groups,
exactly like Python `s.split(sep)` for a one-character separator. -/
def splitChar (sep : Char) : List Char → List (List Char)
  | [] => [[]]
  | c :: cs =>
    match splitChar sep cs with
    | [] => [[]]
    | g :: gs => if c = sep then [] :: g :: gs else (c :: g) :: gs

/-- Python `s.split("\n")`. -/
def pySplitLines (s : String) : List String :=
  (splitChar '\n' s.toList).map String.mk

/-- Python `s.split()` with no argument: split on whitespace runs and drop
empty pieces. -/
def pySplitWs (s : String) : List String :=
  ((splitChar2 s.toList).filter (fun g => g ≠ [])).map String.mk
where
  /-- Split at every whitespace character (empty groups kept, filtered above). -/
  splitChar2 : List Char → List (List Char)
    | [] => [[]]
    | c :: cs =>
      match splitChar2 cs with
      | [] => [[]]
      | g :: gs => if pyIsSpace c then [] :: g :: gs else (c :: g) :: gs

/-- Python `s.lower()` (ASCII behaviour, all the code lowercases is hex). -/
def pyLower (s : String) : String := String.mk (s.toList.map Char.toLower)

/-- Python `" ".join(parts)`. -/
def joinSpace : List String → String
  | [] => ""
  | [x] => x
  | x :: xs => x ++ " " ++ joinSpace xs

/-- Bytes of the UTF-8 encoding of a string, Python `s.encode("utf-8")`. -/
def utf8Bytes (s : String) : List UInt8 := s.toUTF8.data.toList

/-! ## The `AutoFlasher` object and its external worlds -/

/-- State of one `AutoFlasher` instance (`flasher.py`, `__init__`): the
configuration fields, the known-port set (modelled as a duplicate-free list),
the current status string, and the two caches.  Display-only fields
(`current_style`) are omitted. -/
structure AutoFlasher where
  channel : String
  board : Option String
  erase_flash : Bool
  auto_flash : Bool
  post_flash_commands : List String
  base_url : String
  known_ports : List String
  state : String
  version_cache : Option String
  boards_cache : Option (List String)
  deriving Repr, DecidableEq

/-- Fresh instance as built by `AutoFlasher.__init__`. -/
def AutoFlasher.init (channel : String) (board : Option String)
    (erase_flash auto_flash : Bool) (post_flash_commands : List String) : AutoFlasher :=
  { channel := channel
    board := board
    erase_flash := erase_flash
    auto_flash := auto_flash
    post_flash_commands := post_flash_commands
    base_url := "https://firmware.openshock.org"
    known_ports := []
    state := "waiting"
    version_cache := none
    boards_cache := none }

/-- Method `set_state` (the style update is display-only and dropped). -/
def AutoFlasher.set_state (f : AutoFlasher) (s : String) : AutoFlasher :=
  { f with state := s }

/-- Python truthiness of an `Optional[str]`: not `None` and not `""`. -/
def pyTruthyStr : Option String → Bool
  | none => false
  | some s => s ≠ ""

/-- Python truthiness of an `Optional[List[str]]`: not `None` and not `[]`. -/
def pyTruthyList : Option (List String) → Bool
  | none => false
  | some l => l ≠ []

/-- Network world: the outcome of `requests.get(url)` followed by
`raise_for_status()`, as text (`response.text`) or bytes (`response.content`).
An `.error e` models a raised transport/HTTP-status exception. -/
structure Net where
  getText : String → Except String String
  getBytes : String → Except String (List UInt8)

deriving instance DecidableEq for Except

/-- Result of one catalog-client call: the returned value or raised exception,
the updated object, and how many network fetches were issued. -/
structure FetchResult (α : Type) where
  result : Except String α
  flasher : AutoFlasher
  fetches : Nat
  deriving Repr, DecidableEq

/-- Method `fetch_version` (flasher.py lines 107–117): return the cache when it
is truthy, otherwise fetch `{base}/version-{channel}.txt`, strip, cache and
return. -/
def AutoFlasher.fetch_version (f : AutoFlasher) (net : Net) : FetchResult String :=
  if pyTruthyStr f.version_cache then
    ⟨.ok (f.version_cache.getD ""), f, 0⟩
  else
    match net.getText (f.base_url ++ "/version-" ++ f.channel ++ ".txt") with
    | .error e => ⟨.error e, f, 1⟩
    | .ok t =>
      let v := pyStrip t
      ⟨.ok v, { f with version_cache := some v }, 1⟩

/-- Method `fetch_boards` (flasher.py lines 119–129): return the cache when it
is truthy, otherwise fetch `{base}/{version}/boards.txt`, strip the body, split
on newlines, strip each line, cache and return.  Note: empty interior lines are
kept (there is no non-empty filter in the code). -/
def AutoFlasher.fetch_boards (f : AutoFlasher) (net : Net) (version : String) :
    FetchResult (List String) :=
  if pyTruthyList f.boards_cache then
    ⟨.ok (f.boards_cache.getD []), f, 0⟩
  else
    match net.getText (f.base_url ++ "/" ++ version ++ "/boards.txt") with
    | .error e => ⟨.error e, f, 1⟩
    | .ok t =>
      let boards := (pySplitLines (pyStrip t)).map pyStrip
      ⟨.ok boards, { f with boards_cache := some boards }, 1⟩

/-! ## Firmware download and integrity verification -/

/-- One line of the hash manifest, split as the code does: whitespace-split;
with at least two tokens the first (stripped) is the digest and the rest,
rejoined with single spaces and stripped, the filename. -/
def manifestRecord (line : String) : Option (String × String) :=
  match pySplitWs line with
  | h :: rest => if rest ≠ [] then some (pyStrip h, pyStrip (joinSpace rest)) else none
  | [] => none

/-- Scan of the manifest lines (flasher.py lines 158–166): the digest of the
first record whose filename is `firmware.bin` or `./firmware.bin`; scanning
continues past non-matching records. -/
def findExpectedHash : List String → Option String
  | [] => none
  | line :: rest =>
    match manifestRecord line with
    | some (h, fn) =>
      if fn = "firmware.bin" ∨ fn = "./firmware.bin" then some h
      else findExpectedHash rest
    | none => findExpectedHash rest

/-- Expected digest extracted from the raw manifest body: strip, split on
newlines, scan. -/
def parseExpectedHash (hash_text : String) : Option String :=
  findExpectedHash (pySplitLines (pyStrip hash_text))

/-- Method `download_firmware` (flasher.py lines 131–178), with `hashlib`
abstracted as the hex-digest function `sha`.  The two fetches are joined in
`firmware_future.result()` / `hash_future.result()` order; the parsed digest is
checked for Python truthiness (`if not expected_hash`), and the computed digest
is compared case-insensitively.  On success the verified bytes are returned. -/
def AutoFlasher.download_firmware (f : AutoFlasher) (sha : List UInt8 → String)
    (net : Net) (version board : String) : Except String (List UInt8) := do
  let firmware_data ← net.getBytes
    (f.base_url ++ "/" ++ version ++ "/" ++ board ++ "/firmware.bin")
  let hash_text ← net.getText
    (f.base_url ++ "/" ++ version ++ "/" ++ board ++ "/hashes.sha256.txt")
  let expected_hash := parseExpectedHash hash_text
  if (expected_hash.getD "") = "" then
    .error "Could not find hash for firmware.bin"
  else
    let e := expected_hash.getD ""
    let calculated_hash := pyLower (sha firmware_data)
    if calculated_hash ≠ pyLower e then
      .error ("Hash mismatch! Expected " ++ e ++ ", got " ++ calculated_hash)
    else
      .ok firmware_data

/-! ## Post-flash command runner -/

/-- Observable serial-port actions emitted by
`execute_post_flash_commands`: opening the port, writing bytes, flushing,
and closing. -/
inductive SerialEvent where
  | openPort (port : String) (baud : Nat)
  | write (data : List UInt8)
  | flush
  | closePort
  deriving Repr, DecidableEq

/-- Serial world: outcome of opening the port, of the `write`+`flush` pair for
the i-th command, and of the `in_waiting`/`read`/decode step for the i-th
command (`.ok r` gives the decoded, stripped response text, possibly empty). -/
structure SerialWorld where
  openResult : Except String Unit
  writeResult : Nat → Except String Unit
  readResult : Nat → Except String String

/-- Body of the command loop (flasher.py lines 200–216): for each command in
order, write `cmd + "\n"` UTF-8 encoded and flush, then read any response;
the first raised exception aborts the loop.  Returns the emitted events and
the exception, if any. -/
def postFlashLoop (w : SerialWorld) : List String → Nat → List SerialEvent × Option String
  | [], _ => ([], none)
  | cmd :: rest, i =>
    match w.writeResult i with
    | .error e => ([], some e)
    | .ok _ =>
      match w.readResult i with
      | .error e => ([.write (utf8Bytes (cmd ++ "\n")), .flush], some e)
      | .ok _resp =>
        let (evs, err) := postFlashLoop w rest (i + 1)
        (.write (utf8Bytes (cmd ++ "\n")) :: .flush :: evs, err)

/-- Outcome of `execute_post_flash_commands`: the serial events that happened,
and whether an exception was caught by the method's own handler (logged as a
warning).  The method itself never raises. -/
structure PostFlashOutcome where
  events : List SerialEvent
  caughtWarning : Bool
  deriving Repr, DecidableEq

/-- Method `execute_post_flash_commands` (flasher.py lines 180–223): open the
port at 115200 baud, send every command in order, close once after the last
command; any exception anywhere inside is caught and only logged. -/
def AutoFlasher.execute_post_flash_commands (f : AutoFlasher) (w : SerialWorld)
    (port : String) : PostFlashOutcome :=
  match w.openResult with
  | .error _ => ⟨[], true⟩
  | .ok _ =>
    match postFlashLoop w f.post_flash_commands 0 with
    | (evs, some _) => ⟨.openPort port 115200 :: evs, true⟩
    | (evs, none) => ⟨.openPort port 115200 :: (evs ++ [.closePort]), false⟩

/-! ## Flashing one device -/

/-- Filesystem world for the temporary firmware file: outcome of
`tempfile.NamedTemporaryFile(...)` and of the `write`/`flush`/`close` of the
firmware bytes into it. -/
structure FsWorld where
  createResult : Except String Unit
  writeResult : Except String Unit

/-- External esptool world: outcome of the erase invocation and of the
write-flash invocation.  `.error e` stands for a non-zero `SystemExit` or
`FatalError` with text `e`; `.ok ()` for a clean exit. -/
structure EsptoolWorld where
  eraseResult : Except String Unit
  writeResult : Except String Unit

/-- Everything `flash_device` observes about one device session. -/
structure FlashOutcome where
  result : Except String Unit
  tempCreated : Bool
  tempExists : Bool
  unlinkCalls : Nat
  eraseAttempted : Bool
  writeAttempted : Bool
  postFlash : Option PostFlashOutcome
  deriving Repr

/-- Success continuation of `flash_device` (lines 305–316) once the esptool
write has succeeded: optionally run the post-flash commands, set state `done`,
then unlink the temporary file. -/
def flashSuccess (f : AutoFlasher) (sw : SerialWorld) (port : String)
    (erased : Bool) : FlashOutcome × AutoFlasher :=
  let pf := if f.post_flash_commands ≠ [] then
      some (f.execute_post_flash_commands sw port)
    else none
  (⟨.ok (), true, false, 1, erased, true, pf⟩, f.set_state "done")

/-- Method `flash_device` (flasher.py lines 225–323): set state `flashing`,
download and verify the firmware, persist it to a fresh temporary file,
optionally erase, write the flash, optionally run post-flash commands, set
state `done` and unlink the file; on any exception set state `error`, unlink
the file only if it was created, and re-raise. -/
def AutoFlasher.flash_device (f : AutoFlasher) (sha : List UInt8 → String)
    (net : Net) (fs : FsWorld) (tool : EsptoolWorld) (sw : SerialWorld)
    (port version board : String) : FlashOutcome × AutoFlasher :=
  let f := f.set_state "flashing"
  match f.download_firmware sha net version board with
  | .error e => (⟨.error e, false, false, 0, false, false, none⟩, f.set_state "error")
  | .ok _firmware_data =>
    match fs.createResult with
    | .error e => (⟨.error e, false, false, 0, false, false, none⟩, f.set_state "error")
    | .ok _ =>
      match fs.writeResult with
      | .error e => (⟨.error e, true, false, 1, false, false, none⟩, f.set_state "error")
      | .ok _ =>
        if f.erase_flash then
          match tool.eraseResult with
          | .error e =>
            (⟨.error ("Erase failed: " ++ e), true, false, 1, true, false, none⟩,
             f.set_state "error")
          | .ok _ =>
            match tool.writeResult with
            | .error e =>
              (⟨.error ("Flash failed: " ++ e), true, false, 1, true, true, none⟩,
               f.set_state "error")
            | .ok _ => flashSuccess f sw port true
        else
          match tool.writeResult with
          | .error e =>
            (⟨.error ("Flash failed: " ++ e), true, false, 1, false, true, none⟩,
             f.set_state "error")
          | .ok _ => flashSuccess f sw port false

/-! ## Port watching and the run loop -/

/-- Method `detect_new_port` (flasher.py lines 325–340).  The argument is the
outcome of `serial.tools.list_ports.comports()`: `none` models a raised
enumeration exception (caught and logged, known set untouched), `some cur` the
enumerated device names, deduplicated by the Python `set(...)`.  When the
difference against the known set is non-empty it is returned and the known set
is overwritten; otherwise the known set is still overwritten and `none`
returned. -/
def AutoFlasher.detect_new_port (f : AutoFlasher) (comports : Option (List String)) :
    Option (List String) × AutoFlasher :=
  match comports with
  | none => (none, f)
  | some cur =>
    let current_ports := cur.dedup
    let new_ports := current_ports.filter (fun x => !(f.known_ports.contains x))
    if new_ports ≠ [] then
      (some new_ports, { f with known_ports := current_ports })
    else
      (none, { f with known_ports := current_ports })

/-- How `run` exited. -/
inductive RunExit where
  | startupError
  | fatalError (msg : String)
  | ranOut
  deriving Repr, DecidableEq

/-- Per-session worlds for the successive `flash_device` invocations inside
`run`, indexed by invocation count. -/
structure DeviceWorlds where
  fs : Nat → FsWorld
  tool : Nat → EsptoolWorld
  serial_ : Nat → SerialWorld

/-- Startup section of `run` (flasher.py lines 344–377): fetch the version and
the board list; if either fetch raises or the configured board is not a member
of the list, set state `error` and return (`.error`) — before the port
snapshot.  Otherwise snapshot the startup ports as the known set, set state
`waiting` and proceed (`.ok`). -/
def runStartup (f0 : AutoFlasher) (net : Net) (startupPorts : List String) :
    Except AutoFlasher (AutoFlasher × String) :=
  let f := f0.set_state "waiting"
  let rv := f.fetch_version net
  match rv.result with
  | .error _ => .error (rv.flasher.set_state "error")
  | .ok version =>
    let rb := rv.flasher.fetch_boards net version
    match rb.result with
    | .error _ => .error (rb.flasher.set_state "error")
    | .ok boards =>
      match f.board with
      | some b =>
        if b ∈ boards then
          .ok ({ rb.flasher with
                 known_ports := startupPorts.dedup
                 state := "waiting" }, version)
        else .error (rb.flasher.set_state "error")
      | none => .error (rb.flasher.set_state "error")

/-- Inner loop over the newly detected ports of one tick (flasher.py lines
389–407): flash each port in turn when auto-flash is enabled; the first
exception escaping `flash_device` aborts the iteration (it propagates to the
`except Exception` handler of `run`).  Returns the escaped exception if any,
the updated flasher, and the next flash-invocation index. -/
def processPorts (sha : List UInt8 → String) (net : Net) (dw : DeviceWorlds)
    (version board : String) :
    AutoFlasher → List String → Nat → Option String × AutoFlasher × Nat
  | f, [], idx => (none, f, idx)
  | f, p :: rest, idx =>
    if f.auto_flash then
      let r := f.flash_device sha net (dw.fs idx) (dw.tool idx)
        (dw.serial_ idx) p version board
      match r.1.result with
      | .error e => (some e, r.2, idx + 1)
      | .ok _ =>
        let f2 := if r.2.auto_flash then r.2.set_state "waiting" else r.2
        processPorts sha net dw version board f2 rest (idx + 1)
    else
      processPorts sha net dw version board f rest idx

/-- Poll loop of `run` (flasher.py lines 384–414) over a finite trace of
enumeration ticks.  A tick with new ports triggers per-port flashing; an
exception escaping it is caught by the `except Exception` handler of `run`,
which sets state `error` and ends the loop (`fatalError`).  An exhausted trace
leaves the loop still live (`ranOut`). -/
def runLoop (sha : List UInt8 → String) (net : Net) (dw : DeviceWorlds)
    (version board : String) :
    AutoFlasher → Nat → List (Option (List String)) → RunExit × AutoFlasher × Nat
  | f, _, [] => (.ranOut, f, 0)
  | f, idx, tick :: rest =>
    let d := f.detect_new_port tick
    match d.1 with
    | none =>
      let r := runLoop sha net dw version board d.2 idx rest
      (r.1, r.2.1, r.2.2 + 1)
    | some ports =>
      let pp := processPorts sha net dw version board d.2 ports idx
      match pp.1 with
      | some e => (.fatalError e, pp.2.1.set_state "error", 1)
      | none =>
        let r := runLoop sha net dw version board pp.2.1 pp.2.2 rest
        (r.1, r.2.1, r.2.2 + 1)

/-- Method `run` (flasher.py lines 342–425): startup section, then the poll
loop.  The third component counts port enumerations performed (the startup
snapshot plus one per consumed tick); a startup failure returns before any
enumeration. -/
def AutoFlasher.run (f0 : AutoFlasher) (sha : List UInt8 → String) (net : Net)
    (dw : DeviceWorlds) (startupPorts : List String)
    (ticks : List (Option (List String))) : RunExit × AutoFlasher × Nat :=
  match runStartup f0 net startupPorts with
  | .error f1 => (.startupError, f1, 0)
  | .ok (f1, version) =>
    let r := runLoop sha net dw version (f1.board.getD "") f1 0 ticks
    (r.1, r.2.1, 1 + r.2.2)

/-! ## CLI surface (cli.py) -/

/-- Destinations of the options declared by `create_argument_parser`
(cli.py lines 46–74): one entry per `add_argument` call. -/
def cliOptionDests : List String :=
  ["channel", "board", "erase", "no_auto", "post_flash"]

/-- Allowed values of the `--channel` option (cli.py line 49). -/
def cliChannelChoices : List String := ["stable", "beta", "develop"]

/-! ## Declarative manifest parse, from the specification's words

Used only to compare against the parser embedded from the source. -/

/-- Modelled from the spec: "each non-empty line is whitespace-split into a hex
digest and a filename (filename may be multiple whitespace-separated tokens,
rejoined); the record whose filename equals `firmware.bin` or `./firmware.bin`
supplies the expected digest" — all records are formed first, then the first
one with a matching filename is selected. -/
def specManifestDigest (hash_text : String) : Option String :=
  (((pySplitLines (pyStrip hash_text)).filterMap manifestRecord).find?
    (fun r => r.2 == "firmware.bin" || r.2 == "./firmware.bin")).map Prod.fst

/-! ## Concrete worlds for witnesses and counterexamples -/

/-- Network world whose catalog answers are fixed: stable version `1.2.0`,
boards `pill` and `core`, a one-record hash manifest, firmware bytes `[1, 2]`. -/
def netW : Net :=
  { getText := fun u =>
      if u = "https://firmware.openshock.org/version-stable.txt" then .ok "1.2.0\n"
      else if u = "https://firmware.openshock.org/1.2.0/boards.txt" then .ok "pill\ncore\n"
      else .ok "cafebabe  firmware.bin\n"
    getBytes := fun _ => .ok [1, 2] }

/-- Network world whose firmware download raises. -/
def netBoom : Net :=
  { getText := netW.getText
    getBytes := fun _ => .error "boom" }

/-- Network world whose boards body has an interior empty line. -/
def netBlankBoards : Net :=
  { getText := fun u =>
      if u = "https://firmware.openshock.org/version-stable.txt" then .ok "1.2.0\n"
      else if u = "https://firmware.openshock.org/1.2.0/boards.txt" then
        .ok "board1\n\nboard2"
      else .ok ""
    getBytes := fun _ => .ok [] }

/-- Digest oracle for witnesses: the bytes `[1, 2]` hash to `CAFEBABE`
(uppercase, to exercise the case-insensitive comparison). -/
def shaW : List UInt8 → String := fun b => if b = [1, 2] then "CAFEBABE" else "0000"

/-- Filesystem world with no failures. -/
def fsOk : FsWorld := ⟨.ok (), .ok ()⟩

/-- Esptool world with no failures. -/
def toolOk : EsptoolWorld := ⟨.ok (), .ok ()⟩

/-- Serial world with no failures and silent responses. -/
def serOk : SerialWorld := ⟨.ok (), fun _ => .ok (), fun _ => .ok ""⟩

/-- Serial world whose port open raises. -/
def serBad : SerialWorld := ⟨.error "serial dead", fun _ => .error "w", fun _ => .error "r"⟩

/-- Device worlds with no failures. -/
def dwOk : DeviceWorlds := ⟨fun _ => fsOk, fun _ => toolOk, fun _ => serOk⟩

/-- Flasher configured as the CLI would for
`--channel stable --board pill`. -/
def flasherW : AutoFlasher := AutoFlasher.init "stable" (some "pill") false true []

/-- Network world whose hash manifest has no record for `firmware.bin`. -/
def netMiss : Net :=
  { getText := fun u =>
      if u = "https://firmware.openshock.org/version-stable.txt" then .ok "1.2.0\n"
      else if u = "https://firmware.openshock.org/1.2.0/boards.txt" then .ok "pill\ncore\n"
      else .ok "deadbeef  other.bin\n"
    getBytes := fun _ => .ok [1, 2] }

/-- Flasher with two post-flash commands configured. -/
def flasherPF : AutoFlasher := { flasherW with post_flash_commands := ["c1", "c2"] }

/-- Flasher whose known-port set is `{A}`. -/
def flasherA : AutoFlasher := { flasherW with known_ports := ["A"] }

/-- Flasher whose known-port set is `{A, B}`. -/
def flasherAB : AutoFlasher := { flasherW with known_ports := ["A", "B"] }

/-- Flasher configured with a board name absent from the catalog. -/
def flasherX : AutoFlasher := AutoFlasher.init "stable" (some "x") false true []

/-- State of `flasherX` after the version fetch. -/
def flasherXv : AutoFlasher := { flasherX with version_cache := some "1.2.0" }

/-- State of `flasherX` after the boards fetch. -/
def flasherXb : AutoFlasher := { flasherXv with boards_cache := some ["pill", "core"] }

/-- State of `flasherW` after a successful startup against `netW`. -/
def cexF1 : AutoFlasher :=
  { flasherW with
    version_cache := some "1.2.0"
    boards_cache := some ["pill", "core"]
    state := "waiting" }

/-- State of `cexF1` after the first poll tick sees port `COM3`. -/
def cexF2 : AutoFlasher := { cexF1 with known_ports := ["COM3"] }

/-! ## Helper lemmas -/

@[simp] lemma set_state_erase_flash (f : AutoFlasher) (s : String) :
    (f.set_state s).erase_flash = f.erase_flash := rfl

@[simp] lemma set_state_post_flash_commands (f : AutoFlasher) (s : String) :
    (f.set_state s).post_flash_commands = f.post_flash_commands := rfl

@[simp] lemma set_state_state (f : AutoFlasher) (s : String) :
    (f.set_state s).state = s := rfl

@[simp] lemma set_state_board (f : AutoFlasher) (s : String) :
    (f.set_state s).board = f.board := rfl

@[simp] lemma download_firmware_set_state (f : AutoFlasher) (s : String)
    (sha : List UInt8 → String) (net : Net) (v b : String) :
    (f.set_state s).download_firmware sha net v b = f.download_firmware sha net v b := rfl

@[simp] lemma execute_post_flash_commands_set_state (f : AutoFlasher) (s : String)
    (sw : SerialWorld) (p : String) :
    (f.set_state s).execute_post_flash_commands sw p = f.execute_post_flash_commands sw p := rfl

@[simp] lemma except_bind_ok {e a b : Type} (x : a) (f : a → Except e b) :
    (Except.ok x : Except e a) >>= f = f x := rfl

/-- Any session whose `flash_device` raises ends with status `error`
(flasher.py line 319). -/
lemma flash_device_error_state (sha : List UInt8 → String) (net : Net) (fs : FsWorld)
    (tool : EsptoolWorld) (sw : SerialWorld) (f : AutoFlasher) (port version board : String)
    (e : String)
    (h : (f.flash_device sha net fs tool sw port version board).1.result = .error e) :
    (f.flash_device sha net fs tool sw port version board).2.state = "error" := by
  cases hef : f.erase_flash <;>
  rcases hd : f.download_firmware sha net version board with _ | _ <;>
  rcases hc : fs.createResult with _ | _ <;>
  rcases hw : fs.writeResult with _ | _ <;>
  rcases he : tool.eraseResult with _ | _ <;>
  rcases ht : tool.writeResult with _ | _ <;>
  simp_all [AutoFlasher.flash_device, flashSuccess, hd, hc, hw, he, ht, hef]

/-- Scanning for the first matching manifest record equals forming all records
and selecting the first match. -/
lemma findExpectedHash_eq (lines : List String) :
    findExpectedHash lines =
      (((lines.filterMap manifestRecord).find?
        (fun r => r.2 == "firmware.bin" || r.2 == "./firmware.bin")).map Prod.fst) := by
  induction lines with
  | nil => rfl
  | cons line rest ih =>
    cases hm : manifestRecord line with
    | none => simp [findExpectedHash, hm, ih]
    | some r =>
      obtain ⟨h, fn⟩ := r
      by_cases hfn : fn = "firmware.bin" ∨ fn = "./firmware.bin"
      · rcases hfn with hfn | hfn <;> simp [findExpectedHash, hm, hfn]
      · push_neg at hfn
        simp [findExpectedHash, hm, hfn.1, hfn.2, ih]

lemma utf8Bytes_append (a b : String) : utf8Bytes (a ++ b) = utf8Bytes a ++ utf8Bytes b := by
  simp [utf8Bytes, String.toUTF8, String.data_append]

/-- Appending the newline terminator appends the single byte 10 to the UTF-8
encoding. -/
lemma utf8Bytes_cmd_newline (c : String) : utf8Bytes (c ++ "\n") = utf8Bytes c ++ [10] := by
  rw [utf8Bytes_append]; rfl

/-- With no serial exception, the command loop emits write+flush for every
command in order and raises nothing. -/
lemma postFlashLoop_ok (w : SerialWorld) (cmds : List String) (i : Nat)
    (h : ∀ j, j < cmds.length → w.writeResult (i + j) = .ok () ∧ ∃ r, w.readResult (i + j) = .ok r) :
    postFlashLoop w cmds i =
      (cmds.flatMap (fun c => [.write (utf8Bytes (c ++ "\n")), .flush]), none) := by
  induction cmds generalizing i with
  | nil => rfl
  | cons c rest ih =>
    obtain ⟨hw, r, hr⟩ := by simpa using h 0 (by simp)
    have hrest : ∀ j, j < rest.length →
        w.writeResult (i + 1 + j) = .ok () ∧ ∃ r, w.readResult (i + 1 + j) = .ok r := by
      intro j hj
      have := h (j + 1) (by simpa using Nat.succ_lt_succ hj)
      simpa [Nat.add_assoc, Nat.add_comm, Nat.add_left_comm] using this
    simp [postFlashLoop, hw, hr, ih _ hrest]

/-- The groups produced by splitting on a separator are never the empty list of
groups. -/
lemma splitChar_ne_nil (sep : Char) (l : List Char) : splitChar sep l ≠ [] := by
  cases l with
  | nil => simp [splitChar]
  | cons c cs =>
    cases h : splitChar sep cs with
    | nil => simp [splitChar, h]
    | cons g gs =>
      simp only [splitChar, h]
      split <;> simp

/-- Splitting a body on newlines always yields at least one line. -/
lemma pySplitLines_ne_nil (s : String) : pySplitLines s ≠ [] := by
  simp [pySplitLines, splitChar_ne_nil]

/-! ## Claim theorems -/

/-- Claim C2: on every exit path of `flash_device` — success or an exception at
any stage — the session's temporary firmware file no longer exists afterwards,
and when the exception occurred before the temporary file was created no
deletion is attempted. -/
theorem flash_device_always_cleans_temp (sha : List UInt8 → String) (net : Net) (fs : FsWorld)
    (tool : EsptoolWorld) (sw : SerialWorld) (f : AutoFlasher) (port version board : String) :
    ((f.flash_device sha net fs tool sw port version board).1.tempExists = false) ∧
    ((f.flash_device sha net fs tool sw port version board).1.tempCreated = false →
      (f.flash_device sha net fs tool sw port version board).1.unlinkCalls = 0) := by
  cases hef : f.erase_flash <;>
  rcases hd : f.download_firmware sha net version board with _ | _ <;>
  rcases hc : fs.createResult with _ | _ <;>
  rcases hw : fs.writeResult with _ | _ <;>
  rcases he : tool.eraseResult with _ | _ <;>
  rcases ht : tool.writeResult with _ | _ <;>
  simp [AutoFlasher.flash_device, flashSuccess, hd, hc, hw, he, ht, hef]

/-- Witness for C2: a session whose download raises leaves no file behind and
attempted no deletion. -/
theorem flash_device_always_cleans_temp_witness :
    ((flasherW.flash_device shaW netBoom fsOk toolOk serOk "COM3" "1.2.0" "pill").1.tempExists
      = false) ∧
    ((flasherW.flash_device shaW netBoom fsOk toolOk serOk "COM3" "1.2.0" "pill").1.unlinkCalls
      = 0) :=
  ⟨(flash_device_always_cleans_temp shaW netBoom fsOk toolOk serOk flasherW
      "COM3" "1.2.0" "pill").1,
   (flash_device_always_cleans_temp shaW netBoom fsOk toolOk serOk flasherW
      "COM3" "1.2.0" "pill").2 (by decide)⟩

/-- Claim C3: with the digest oracle abstracted, `download_firmware` succeeds
exactly when the computed hex digest of the downloaded bytes equals the
manifest's expected digest case-insensitively; on a differing digest it fails
with the exact hash-mismatch message carrying both digests, never silently. -/
theorem download_verifies_digest
    (sha : List UInt8 → String) (net : Net) (f : AutoFlasher) (version board : String)
    (B : List UInt8) (ht expected : String)
    (hB : net.getBytes (f.base_url ++ "/" ++ version ++ "/" ++ board ++ "/firmware.bin") = .ok B)
    (hT : net.getText (f.base_url ++ "/" ++ version ++ "/" ++ board ++ "/hashes.sha256.txt")
      = .ok ht)
    (hE : parseExpectedHash ht = some expected)
    (hne : expected ≠ "") :
    (f.download_firmware sha net version board = .ok B ↔ pyLower (sha B) = pyLower expected) ∧
    (pyLower (sha B) ≠ pyLower expected →
      f.download_firmware sha net version board =
        .error ("Hash mismatch! Expected " ++ expected ++ ", got " ++ pyLower (sha B))) := by
  by_cases hcmp : pyLower (sha B) = pyLower expected <;>
    simp [AutoFlasher.download_firmware, hB, hT, hE, hne, hcmp]

/-- Witness for C3: a manifest digest differing only in letter case verifies;
the bytes are returned. -/
theorem download_verifies_digest_witness :
    flasherW.download_firmware shaW netW "1.2.0" "pill" = .ok [1, 2] :=
  (download_verifies_digest shaW netW flasherW "1.2.0" "pill" [1, 2]
      "cafebabe  firmware.bin\n" "cafebabe"
      rfl rfl (by decide) (by decide)).1.mpr (by decide)

/-- Claim C4: the embedded manifest parser equals the declarative
first-matching-record parser written from the spec, and when no record matches
`firmware.bin` or `./firmware.bin` the download fails with the missing-digest
error and `flash_device` never reaches the erase or write stage. -/
theorem manifest_parse_first_match (ht : String) :
    parseExpectedHash ht = specManifestDigest ht ∧
    (∀ (sha : List UInt8 → String) (net : Net) (f : AutoFlasher) (version board : String)
      (B : List UInt8),
      net.getBytes (f.base_url ++ "/" ++ version ++ "/" ++ board ++ "/firmware.bin") = .ok B →
      net.getText (f.base_url ++ "/" ++ version ++ "/" ++ board ++ "/hashes.sha256.txt")
        = .ok ht →
      parseExpectedHash ht = none →
      f.download_firmware sha net version board = .error "Could not find hash for firmware.bin" ∧
      ∀ (fs : FsWorld) (tool : EsptoolWorld) (sw : SerialWorld) (port : String),
        (f.flash_device sha net fs tool sw port version board).1.result =
          .error "Could not find hash for firmware.bin" ∧
        (f.flash_device sha net fs tool sw port version board).1.writeAttempted = false ∧
        (f.flash_device sha net fs tool sw port version board).1.eraseAttempted = false) := by
  constructor
  · unfold parseExpectedHash specManifestDigest
    exact findExpectedHash_eq _
  · intro sha net f version board B hB hT hnone
    have hdl : f.download_firmware sha net version board =
        .error "Could not find hash for firmware.bin" := by
      simp [AutoFlasher.download_firmware, hB, hT, hnone]
    refine ⟨hdl, ?_⟩
    intro fs tool sw port
    simp [AutoFlasher.flash_device, hdl]

/-- Witness for C4: a manifest whose only record names a different file makes
the download fail with the missing-digest error. -/
theorem manifest_parse_first_match_witness :
    flasherW.download_firmware shaW netMiss "1.2.0" "pill" =
      .error "Could not find hash for firmware.bin" :=
  ((manifest_parse_first_match "deadbeef  other.bin\n").2 shaW netMiss flasherW
    "1.2.0" "pill" [1, 2] rfl rfl (by decide)).1

/-- Claim C6: for a successful enumeration the known set is always overwritten
with the current snapshot; the result is absent exactly when every current port
was already known, and otherwise is precisely the set difference
current − known (duplicate-free); a raised enumeration is caught and behaves as
no new devices, leaving the known set untouched. -/
theorem detect_new_port_diff (f : AutoFlasher) (cur : List String) :
    (∀ x, x ∈ (f.detect_new_port (some cur)).2.known_ports ↔ x ∈ cur) ∧
    ((f.detect_new_port (some cur)).1 = none ↔ ∀ x ∈ cur, x ∈ f.known_ports) ∧
    (∀ l, (f.detect_new_port (some cur)).1 = some l →
      l.Nodup ∧ ∀ x, (x ∈ l ↔ x ∈ cur ∧ x ∉ f.known_ports)) ∧
    f.detect_new_port none = (none, f) := by
  refine ⟨?_, ?_, ?_, rfl⟩
  · simp only [AutoFlasher.detect_new_port]
    split <;> simp [List.mem_dedup]
  · simp only [AutoFlasher.detect_new_port]
    split <;> rename_i h
    · refine iff_of_false (by simp) ?_
      intro hall
      apply h
      rw [List.filter_eq_nil_iff]
      intro x hx
      simp [List.elem_iff, hall x (List.mem_dedup.1 hx)]
    · have hnil : List.filter (fun x => !f.known_ports.contains x) cur.dedup = [] := by
        simpa using h
      refine iff_of_true rfl ?_
      intro x hx
      have := List.filter_eq_nil_iff.1 hnil x (List.mem_dedup.2 hx)
      simpa [List.elem_iff] using this
  · simp only [AutoFlasher.detect_new_port]
    split <;> rename_i h
    · intro l hl
      obtain rfl : List.filter (fun x => !f.known_ports.contains x) cur.dedup = l :=
        Option.some.inj hl
      refine ⟨(List.nodup_dedup cur).filter _, ?_⟩
      intro x
      simp [List.mem_filter, List.mem_dedup, List.elem_iff]
    · intro l hl
      exact Option.noConfusion hl

/-- Witness for C6: from known set `{A}` and current set `{A, B}` exactly `B`
is reported; an immediately repeated poll with the same current set reports
nothing. -/
theorem detect_new_port_diff_witness :
    (flasherA.detect_new_port (some ["A", "B"])).1 = some ["B"] ∧
    (flasherAB.detect_new_port (some ["A", "B"])).1 = none :=
  ⟨by decide, ((detect_new_port_diff flasherAB ["A", "B"]).2.1).mpr (by decide)⟩

/-- Claim C8: whenever the flash stages themselves succeed, the session
transitions to `done` and reports success for EVERY serial world — any
exception inside the post-flash runner is caught at the runner's own boundary
(flagged as a logged warning) and never propagates to `flash_device`. -/
theorem post_flash_failures_nonfatal
    (sha : List UInt8 → String) (net : Net) (fs : FsWorld) (tool : EsptoolWorld)
    (f : AutoFlasher) (port version board : String) (B : List UInt8)
    (hd : f.download_firmware sha net version board = .ok B)
    (hc : fs.createResult = .ok ()) (hw : fs.writeResult = .ok ())
    (he : f.erase_flash = true → tool.eraseResult = .ok ())
    (ht : tool.writeResult = .ok ()) :
    ∀ sw : SerialWorld,
      (f.flash_device sha net fs tool sw port version board).1.result = .ok () ∧
      (f.flash_device sha net fs tool sw port version board).2.state = "done" ∧
      (f.post_flash_commands ≠ [] →
        (f.flash_device sha net fs tool sw port version board).1.postFlash =
          some (f.execute_post_flash_commands sw port)) ∧
      (∀ err, sw.openResult = .error err →
        (f.execute_post_flash_commands sw port).caughtWarning = true) := by
  intro sw
  have hcatch : ∀ err, sw.openResult = .error err →
      (f.execute_post_flash_commands sw port).caughtWarning = true := by
    intro err herr
    simp [AutoFlasher.execute_post_flash_commands, herr]
  cases hef : f.erase_flash
  · exact ⟨by simp [AutoFlasher.flash_device, flashSuccess, hd, hc, hw, ht, hef],
      by simp [AutoFlasher.flash_device, flashSuccess, hd, hc, hw, ht, hef],
      by simp [AutoFlasher.flash_device, flashSuccess, hd, hc, hw, ht, hef], hcatch⟩
  · exact ⟨by simp [AutoFlasher.flash_device, flashSuccess, hd, hc, hw, ht, hef, he hef],
      by simp [AutoFlasher.flash_device, flashSuccess, hd, hc, hw, ht, hef, he hef],
      by simp [AutoFlasher.flash_device, flashSuccess, hd, hc, hw, ht, hef, he hef], hcatch⟩

/-- Witness for C8: with a serial world whose port open raises, the session
still ends `done` with a success result, and the runner records the caught
warning. -/
theorem post_flash_failures_nonfatal_witness :
    (flasherPF.flash_device shaW netW fsOk toolOk serBad "COM3" "1.2.0" "pill").1.result
      = .ok () ∧
    (flasherPF.flash_device shaW netW fsOk toolOk serBad "COM3" "1.2.0" "pill").2.state
      = "done" ∧
    (flasherPF.execute_post_flash_commands serBad "COM3").caughtWarning = true :=
  have h := post_flash_failures_nonfatal shaW netW fsOk toolOk flasherPF
    "COM3" "1.2.0" "pill" [1, 2] rfl rfl rfl (fun _ => rfl) rfl serBad
  ⟨h.1, h.2.1, h.2.2.2 "serial dead" rfl⟩

/-- Claim C9: when no serial I/O exception occurs, the runner writes the
configured commands in exactly the given order, each as its UTF-8 bytes
followed by exactly one newline byte and a flush, and closes the connection
exactly once, after the last command; device-side command failures have no
control-flow signal and cannot alter this. -/
theorem post_flash_command_order (f : AutoFlasher) (w : SerialWorld) (port : String)
    (hopen : w.openResult = .ok ())
    (hio : ∀ j, j < f.post_flash_commands.length →
      w.writeResult j = .ok () ∧ ∃ r, w.readResult j = .ok r) :
    (f.execute_post_flash_commands w port).events =
      .openPort port 115200 ::
        (f.post_flash_commands.flatMap (fun c => [.write (utf8Bytes c ++ [10]), .flush]))
        ++ [.closePort] ∧
    (f.execute_post_flash_commands w port).events.count .closePort = 1 ∧
    (f.execute_post_flash_commands w port).caughtWarning = false := by
  have hloop := postFlashLoop_ok w f.post_flash_commands 0 (by simpa using hio)
  have hev : (f.execute_post_flash_commands w port).events =
      .openPort port 115200 ::
        (f.post_flash_commands.flatMap (fun c => [.write (utf8Bytes c ++ [10]), .flush]))
        ++ [.closePort] := by
    simp only [AutoFlasher.execute_post_flash_commands, hopen, hloop]
    simp [utf8Bytes_cmd_newline]
  refine ⟨hev, ?_, ?_⟩
  · rw [hev]
    have hnotin : SerialEvent.closePort ∉
        f.post_flash_commands.flatMap
          (fun c => [SerialEvent.write (utf8Bytes c ++ [10]), .flush]) := by
      simp [List.mem_flatMap]
    simp [List.count_append, List.count_cons, List.count_eq_zero.2 hnotin]
  · simp [AutoFlasher.execute_post_flash_commands, hopen, hloop]

/-- Witness for C9: commands `c1`, `c2` are written in order with single
newline terminators and one final close. -/
theorem post_flash_command_order_witness :
    (flasherPF.execute_post_flash_commands serOk "COM3").events =
      .openPort "COM3" 115200 ::
        (["c1", "c2"].flatMap (fun c => [.write (utf8Bytes c ++ [10]), .flush]))
        ++ [.closePort] ∧
    (flasherPF.execute_post_flash_commands serOk "COM3").events.count .closePort = 1 :=
  have h := post_flash_command_order flasherPF serOk "COM3" rfl
    (fun _ _ => ⟨rfl, "", rfl⟩)
  ⟨h.1, h.2.1⟩

/-- Claim C5: when the configured board is not a member of the fetched catalog,
`run` sets status `error` and returns with zero port enumerations — before any
snapshot or polling; when the board is a member, startup validation succeeds
and the ports present at startup become the initial known set. -/
theorem startup_board_validation
    (sha : List UInt8 → String) (net : Net) (dw : DeviceWorlds) (f0 : AutoFlasher)
    (startupPorts : List String) (ticks : List (Option (List String)))
    (b version : String) (boards : List String) (fv fb : AutoFlasher) (nv nb : Nat)
    (hb : f0.board = some b)
    (hv : (f0.set_state "waiting").fetch_version net = ⟨.ok version, fv, nv⟩)
    (hbs : fv.fetch_boards net version = ⟨.ok boards, fb, nb⟩) :
    (b ∉ boards →
      f0.run sha net dw startupPorts ticks = (.startupError, fb.set_state "error", 0)) ∧
    (b ∈ boards →
      runStartup f0 net startupPorts =
        .ok ({ fb with known_ports := startupPorts.dedup, state := "waiting" }, version) ∧
      ∀ x ∈ startupPorts,
        x ∈ ({ fb with known_ports := startupPorts.dedup, state := "waiting" }
          : AutoFlasher).known_ports) := by
  constructor
  · intro hnb
    simp [AutoFlasher.run, runStartup, hv, hbs, hb, hnb]
  · intro hbm
    refine ⟨by simp [runStartup, hv, hbs, hb, hbm], ?_⟩
    intro x hx
    simp [List.mem_dedup, hx]

/-- Witness for C5: board `x` is not in the catalog `pill, core`, so the run
exits with status `error` and zero enumerations. -/
theorem startup_board_validation_witness :
    flasherX.run shaW netW dwOk [] [] = (.startupError, flasherXb.set_state "error", 0) :=
  (startup_board_validation shaW netW dwOk flasherX [] [] "x" "1.2.0" ["pill", "core"]
    flasherXv flasherXb 1 1 rfl (by decide) (by decide)).1 (by decide)

/-- Claim C7 (amended): no explicit firmware version can be configured — the
CLI exposes only channel, board, erase, no-auto and post-flash options — and
version resolution always derives from the channel: a fresh cache triggers
exactly one fetch of `{base}/version-{channel}.txt` whose body is trimmed,
cached and returned, while a truthy cache is returned with no fetch. -/
theorem version_resolution_channel_only (f : AutoFlasher) (net : Net) :
    "version" ∉ cliOptionDests ∧
    (f.version_cache = none →
      (f.fetch_version net).fetches = 1 ∧
      ∀ t, net.getText (f.base_url ++ "/version-" ++ f.channel ++ ".txt") = .ok t →
        f.fetch_version net =
          ⟨.ok (pyStrip t), { f with version_cache := some (pyStrip t) }, 1⟩) ∧
    (∀ c, f.version_cache = some c → c ≠ "" → f.fetch_version net = ⟨.ok c, f, 0⟩) := by
  refine ⟨by decide, ?_, ?_⟩
  · intro hnone
    constructor
    · rcases hg : net.getText (f.base_url ++ "/version-" ++ f.channel ++ ".txt") with e | t <;>
        simp [AutoFlasher.fetch_version, pyTruthyStr, hnone, hg]
    · intro t hg
      simp [AutoFlasher.fetch_version, pyTruthyStr, hnone, hg]
  · intro c hc hne
    simp [AutoFlasher.fetch_version, pyTruthyStr, hc, hne]

/-- Witness for C7: a fresh stable-channel flasher resolves `1.2.0` from the
channel endpoint with one fetch and caches it. -/
theorem version_resolution_channel_only_witness :
    flasherW.fetch_version netW =
      ⟨.ok "1.2.0", { flasherW with version_cache := some "1.2.0" }, 1⟩ :=
  ((version_resolution_channel_only flasherW netW).2.1 rfl).2 "1.2.0\n" rfl

/-- Counterexample for C7 as stated: the CLI has no option configuring an
explicit firmware version, and a fresh run's version resolution performs a
network fetch — there is no configuration under which resolution returns an
explicit version with no fetch. -/
theorem no_explicit_version_flag :
    "version" ∉ cliOptionDests ∧
    (flasherW.fetch_version netW).fetches = 1 ∧
    (flasherW.fetch_version netW).result = .ok "1.2.0" := by
  decide

/-- Claim C10 (amended): `fetch_boards` returns the body trimmed, split on
newlines, each line trimmed — interior empty lines are preserved — in file
order; the list is cached (the split is never empty, so the cache is always
truthy) and a second call performs no fetch and returns the same list; a
second `fetch_version` call for the channel likewise performs no fetch when
the trimmed version text is non-empty. -/
theorem fetch_boards_trimmed_cached
    (f : AutoFlasher) (net : Net) (v body : String)
    (hcache : f.boards_cache = none)
    (hg : net.getText (f.base_url ++ "/" ++ v ++ "/boards.txt") = .ok body) :
    f.fetch_boards net v =
      ⟨.ok ((pySplitLines (pyStrip body)).map pyStrip),
       { f with boards_cache := some ((pySplitLines (pyStrip body)).map pyStrip) }, 1⟩ ∧
    (∀ v2, (f.fetch_boards net v).flasher.fetch_boards net v2 =
      ⟨.ok ((pySplitLines (pyStrip body)).map pyStrip), (f.fetch_boards net v).flasher, 0⟩) ∧
    (∀ t, f.version_cache = none →
      net.getText (f.base_url ++ "/version-" ++ f.channel ++ ".txt") = .ok t →
      pyStrip t ≠ "" →
      (f.fetch_version net).fetches = 1 ∧
      (f.fetch_version net).flasher.fetch_version net =
        ⟨.ok (pyStrip t), (f.fetch_version net).flasher, 0⟩) := by
  have hLne : (pySplitLines (pyStrip body)).map pyStrip ≠ [] := by
    cases hlines : pySplitLines (pyStrip body) with
    | nil => exact absurd hlines (pySplitLines_ne_nil _)
    | cons a as => simp
  have h1 : f.fetch_boards net v =
      ⟨.ok ((pySplitLines (pyStrip body)).map pyStrip),
       { f with boards_cache := some ((pySplitLines (pyStrip body)).map pyStrip) }, 1⟩ := by
    simp [AutoFlasher.fetch_boards, pyTruthyList, hcache, hg]
  refine ⟨h1, ?_, ?_⟩
  · intro v2
    rw [h1]
    simp [AutoFlasher.fetch_boards, pyTruthyList, hLne]
  · intro t hvc hgt hne
    have h2 : f.fetch_version net =
        ⟨.ok (pyStrip t), { f with version_cache := some (pyStrip t) }, 1⟩ := by
      simp [AutoFlasher.fetch_version, pyTruthyStr, hvc, hgt]
    refine ⟨by rw [h2], ?_⟩
    rw [h2]
    simp [AutoFlasher.fetch_version, pyTruthyStr, hne]

/-- Witness for C10: the board list `pill, core` is fetched once and the second
call is served from the cache with no fetch. -/
theorem fetch_boards_trimmed_cached_witness :
    flasherW.fetch_boards netW "1.2.0" =
      ⟨.ok ["pill", "core"], { flasherW with boards_cache := some ["pill", "core"] }, 1⟩ ∧
    ((flasherW.fetch_boards netW "1.2.0").flasher.fetch_boards netW "1.2.0").fetches = 0 :=
  have h := fetch_boards_trimmed_cached flasherW netW "1.2.0" "pill\ncore\n" rfl rfl
  ⟨h.1, by rw [h.2.1 "1.2.0"]⟩

/-- Counterexample for C10 as stated: a boards body with an interior blank line
yields a list containing the empty string — the lines are not filtered to the
non-empty ones. -/
theorem fetch_boards_keeps_blank_lines :
    (flasherW.fetch_boards netBlankBoards "1.2.0").result = .ok ["board1", "", "board2"] ∧
    "" ∈ ["board1", "", "board2"] := by
  decide

/-- Claim C1 (amended): when `flash_device` fails for a detected device, the
session's status transitions to `error` and the exception propagates out of
`flash_device` into `run`, whose catch-all handler sets status `error` and
terminates the poll loop — the run returns after the failing tick (two
enumerations: the startup snapshot and the failing tick) instead of continuing
to poll for further devices. -/
theorem flash_failure_ends_run
    (sha : List UInt8 → String) (net : Net) (dw : DeviceWorlds) (f0 : AutoFlasher)
    (startupPorts : List String) (tick : Option (List String))
    (rest : List (Option (List String)))
    (f1 f2 : AutoFlasher) (version p : String) (ports2 : List String) (e : String)
    (hs : runStartup f0 net startupPorts = .ok (f1, version))
    (hd : f1.detect_new_port tick = (some (p :: ports2), f2))
    (ha : f2.auto_flash = true)
    (hf : (f2.flash_device sha net (dw.fs 0) (dw.tool 0) (dw.serial_ 0) p version
        (f1.board.getD "")).1.result = .error e) :
    (f2.flash_device sha net (dw.fs 0) (dw.tool 0) (dw.serial_ 0) p version
        (f1.board.getD "")).2.state = "error" ∧
    f0.run sha net dw startupPorts (tick :: rest) =
      (.fatalError e,
        ((f2.flash_device sha net (dw.fs 0) (dw.tool 0) (dw.serial_ 0) p version
          (f1.board.getD "")).2).set_state "error", 2) := by
  refine ⟨flash_device_error_state _ _ _ _ _ _ _ _ _ _ hf, ?_⟩
  simp only [AutoFlasher.run, hs]
  simp only [runLoop, hd]
  simp only [processPorts, ha, if_true]
  simp only [hf]

/-- Witness for C1 (amended): a failing download on the first detected device
ends the run with `fatalError` after two enumerations. -/
theorem flash_failure_ends_run_witness :
    flasherW.run shaW netBoom dwOk [] [some ["COM3"]] =
      (.fatalError "boom",
       ((cexF2.flash_device shaW netBoom fsOk toolOk serOk "COM3" "1.2.0" "pill").2).set_state
         "error", 2) :=
  (flash_failure_ends_run shaW netBoom dwOk flasherW [] (some ["COM3"]) [] cexF1 cexF2
    "1.2.0" "COM3" [] "boom" (by decide) (by decide) rfl (by decide)).2

/-- Counterexample for C1 as stated: with two poll ticks scheduled and the
first detected device failing to flash, the run ends with `fatalError` and
status `error` after only two enumerations — the second tick is never polled,
so one failed device session does end the watcher's poll loop. -/
theorem flash_failure_kills_poll_loop :
    (flasherW.run shaW netBoom dwOk [] [some ["COM3"], some ["COM3", "COM4"]]).1 =
      .fatalError "boom" ∧
    (flasherW.run shaW netBoom dwOk [] [some ["COM3"], some ["COM3", "COM4"]]).2.1.state
      = "error" ∧
    (flasherW.run shaW netBoom dwOk [] [some ["COM3"], some ["COM3", "COM4"]]).2.2 = 2 := by
  decide
